import Mathlib

/-!
Verification of the ResponsiaTax retrieval-augmented chat pipeline.

This file gives a shallow embedding, in Lean 4, of the pipeline's core
operations as they are written in the TypeScript source:

* `RagService.chunkText` (document chunker) — modelled over `List Char`
  with JavaScript string semantics (`slice`, `trim`, `lastIndexOf`,
  `replace(/\n{3,}/g, ...)`), integer positions as `Int` (JS numbers go
  negative in this loop), and the `while` loop modelled as a fuel-indexed
  step function.
* `RagService.searchPostgres` / `RagService.search` (hybrid retrieval) —
  the SQL queries are embedded with list semantics (filter, sort by score
  descending, limit), with the engine-specific scoring functions
  (`ts_rank_cd`, `@@`, `similarity`) as opaque parameters.
* `LlmController.buildSystemPrompt` (context assembly) and the chat-turn
  message protocol.
* `LlmService.chat` / `chatStream` preflight (model catalog and provider
  credential checks) and the SSE stream-consumption loop of
  `LlmController.chatStream`.

JS floating point appears in exactly one spot (`maxChars * 0.3`); it is
modelled with exact integer arithmetic scaled by 10, which coincides with
IEEE doubles at the default `maxChars = 1500` (where `1500 * 0.3`
evaluates to exactly `450.0`).
-/

namespace ResponsiaTax

/-! ### JavaScript string primitives over `List Char` -/

/-- Whitespace recognised by JS `String.prototype.trim`, `split(/\s+/)`:
space, tab, LF, CR, VT, FF, NBSP (the common members of the ECMAScript
WhiteSpace/LineTerminator sets that occur in this code base's data). -/
def jsWsChar (c : Char) : Bool :=
  c == ' ' || c == '\t' || c == '\n' || c == '\r' || c == '\x0b' ||
  c == '\x0c' || c == ' '

/-- JS `String.prototype.trim`: drop whitespace from both ends. -/
def jsTrim (l : List Char) : List Char :=
  ((l.dropWhile jsWsChar).reverse.dropWhile jsWsChar).reverse

/-- JS `String.prototype.slice(s, e)`: negative indices count from the end,
both indices are clamped to `[0, length]`. -/
def jsSlice (l : List Char) (s e : Int) : List Char :=
  let len : Int := l.length
  let s1 : Int := if s < 0 then max (len + s) 0 else min s len
  let e1 : Int := if e < 0 then max (len + e) 0 else min e len
  if s1 < e1 then (l.drop s1.toNat).take (e1 - s1).toNat else []

/-- Does `needle` occur in `hay` starting exactly at index `i`? -/
def occursAt (hay needle : List Char) (i : Nat) : Bool :=
  needle.isPrefixOf (hay.drop i)

/-- Scan downward from index `i` for the last occurrence of `needle`. -/
def lastIndexOfAux (hay needle : List Char) : Nat → Int
  | 0 => if occursAt hay needle 0 then 0 else -1
  | i + 1 =>
    if occursAt hay needle (i + 1) then ((i : Int) + 1)
    else lastIndexOfAux hay needle i

/-- JS `String.prototype.lastIndexOf(needle, fromIdx)`: the largest start
index `≤ fromIdx` at which `needle` occurs, `-1` if none; `fromIdx` is
clamped to `[0, length]`. -/
def jsLastIndexOf (hay needle : List Char) (fromIdx : Int) : Int :=
  lastIndexOfAux hay needle (min (max fromIdx 0) (hay.length : Int)).toNat

/-- Emit a run of `n` newlines as the regex replacement
`replace(/\n{3,}/g, '\n\n')` would: runs of three or more newlines
collapse to exactly two. -/
def emitNl (n : Nat) : List Char :=
  if 3 ≤ n then ['\n', '\n'] else List.replicate n '\n'

/-- Helper for `collapseNl`: `pend` counts the newlines read but not yet
emitted. -/
def collapseNlAux : Nat → List Char → List Char
  | pend, [] => emitNl pend
  | pend, c :: cs =>
    if c == '\n' then collapseNlAux (pend + 1) cs
    else emitNl pend ++ c :: collapseNlAux 0 cs

/-- JS `text.replace(/\n{3,}/g, '\n\n')`. -/
def collapseNl (l : List Char) : List Char := collapseNlAux 0 l

/-! ### Chunker: `RagService.chunkText` -/

/-- One chunk produced by `chunkText`: `{ content, startChar, endChar }`.
Positions are `Int` because the JS loop variable `pos` can go negative. -/
structure Chunk where
  content : List Char
  startChar : Int
  endChar : Int
deriving DecidableEq, Repr

/-- The `Math.max` of the four sentence-break `lastIndexOf` probes. -/
def sentenceBreakAt (n : List Char) (e : Int) : Int :=
  max (max (jsLastIndexOf n ['.', ' '] e) (jsLastIndexOf n ['.', '\n'] e))
      (max (jsLastIndexOf n [';', '\n'] e) (jsLastIndexOf n [':', '\n'] e))

/-- The `end` position chosen by one iteration of the `chunkText` loop:
start from `min (pos + maxChars) len`; if that is mid-text, prefer the
last paragraph break after 30% of the window, else the last sentence
break after 30% of the window.  The JS comparison `x > pos + maxChars * 0.3`
is modelled exactly as `10 * x > 10 * pos + 3 * maxChars` (equal to the
IEEE-double comparison at the default `maxChars = 1500`). -/
def chunkEnd (n : List Char) (maxChars : Nat) (pos : Int) : Int :=
  let len : Int := n.length
  let e0 : Int := min (pos + (maxChars : Int)) len
  if e0 < len then
    let paraBreak := jsLastIndexOf n ['\n', '\n'] e0
    if 10 * paraBreak > 10 * pos + 3 * (maxChars : Int) then paraBreak + 2
    else
      let sb := sentenceBreakAt n e0
      if 10 * sb > 10 * pos + 3 * (maxChars : Int) then sb + 1 else e0
  else e0

/-- The chunk cut by one iteration of the `chunkText` loop:
`normalized.slice(pos, end).trim()`. -/
def chunkCut (n : List Char) (maxChars : Nat) (pos : Int) : List Char :=
  jsTrim (jsSlice n pos (chunkEnd n maxChars pos))

/-- `if (chunk.length >= 50) chunks.push({content, startChar: pos,
endChar: end})`. -/
def chunkPush (n : List Char) (maxChars : Nat) (pos : Int)
    (chunks : List Chunk) : List Chunk :=
  if 50 ≤ (chunkCut n maxChars pos).length then
    chunks ++ [⟨chunkCut n maxChars pos, pos, chunkEnd n maxChars pos⟩]
  else chunks

/-- The next loop position: `pos = end - overlap`, then the non-advance
guard `if (pos <= chunks[chunks.length - 1]?.startChar) pos = end`, read
against the chunk list after the push.  When the chunk list is empty the
JS optional access yields `undefined` and the comparison is `false`, so
the guard does not fire. -/
def chunkNextPos (n : List Char) (maxChars overlap : Nat) (pos : Int)
    (chunks2 : List Chunk) : Int :=
  match chunks2.getLast? with
  | some c =>
    if chunkEnd n maxChars pos - (overlap : Int) ≤ c.startChar then
      chunkEnd n maxChars pos
    else chunkEnd n maxChars pos - (overlap : Int)
  | none => chunkEnd n maxChars pos - (overlap : Int)

/-- One full iteration of the `while (pos < normalized.length)` body. -/
def chunkStep (n : List Char) (maxChars overlap : Nat) (pos : Int)
    (chunks : List Chunk) : Int × List Chunk :=
  (chunkNextPos n maxChars overlap pos (chunkPush n maxChars pos chunks),
   chunkPush n maxChars pos chunks)

/-- Fuel-indexed run of the `chunkText` loop: `none` means the fuel ran
out with the loop still running. -/
def chunkLoop (n : List Char) (maxChars overlap : Nat) :
    Nat → Int → List Chunk → Option (List Chunk)
  | 0, pos, chunks => if pos < (n.length : Int) then none else some chunks
  | fuel + 1, pos, chunks =>
    if pos < (n.length : Int) then
      chunkLoop n maxChars overlap fuel
        (chunkStep n maxChars overlap pos chunks).1
        (chunkStep n maxChars overlap pos chunks).2
    else some chunks

/-- `RagService.chunkText(text, maxChars, overlap)` run with `fuel`
iterations allowed: normalize (`replace(/\n{3,}/g,'\n\n').trim()`),
return `[]` on empty, else run the chunking loop from `pos = 0`. -/
def chunkTextRun (text : List Char) (maxChars overlap fuel : Nat) :
    Option (List Chunk) :=
  if (jsTrim (collapseNl text)).isEmpty then some []
  else chunkLoop (jsTrim (collapseNl text)) maxChars overlap fuel 0 []

/-- `chunkText` diverges on `text`: no amount of fuel completes the loop. -/
def chunkTextDiverges (text : List Char) (maxChars overlap : Nat) : Prop :=
  ∀ fuel, chunkTextRun text maxChars overlap fuel = none

/-- Every chunk in the list has content length at least 50. -/
def allChunksMin50 (cs : List Chunk) : Bool :=
  cs.all (fun c => 50 ≤ c.content.length)

/-- A sample input shorter than 50 characters. -/
def helloText : List Char := ['h', 'e', 'l', 'l', 'o']

/-- A sample input of 60 identical letters (long enough for one chunk). -/
def aaaText : List Char := List.replicate 60 'a'

/-! ### Hybrid retrieval: `RagService.searchPostgres` and `RagService.search`

The two SQL statements are embedded with list semantics: the
`document_chunks JOIN documents` relation is a list of row pairs, `WHERE`
is `filter`, `ORDER BY score DESC` is an insertion sort by the scoring
relation, `LIMIT` is `take`.  The engine-specific functions
(`to_tsvector ... @@ to_tsquery`, `ts_rank_cd`, `similarity`) are opaque
parameters of the model; scores are `Rat` (SQL floats). -/

/-- A row of `document_chunks`. -/
structure DbChunk where
  id : Nat
  content : String
  section_title : Option String
  dossier_id : Nat
  document_id : Nat
deriving DecidableEq, Repr

/-- A row of `documents` (the columns this query reads). -/
structure DbDocument where
  id : Nat
  filename : String
  doc_type : String
deriving DecidableEq, Repr

/-- The `ChunkResult` record returned by the retrieval engine. -/
structure ChunkResult where
  id : Nat
  content : String
  section_title : Option String
  filename : String
  doc_type : String
  score : Rat
deriving DecidableEq, Repr

/-- The database plus the opaque Postgres text-search engine:
`ftsMatch tsq content` is `to_tsvector('french', content) @@
to_tsquery('french', tsq)`, `ftsRank` is `ts_rank_cd`, `sim content q` is
`similarity(content, q)`, and `trgmOk = false` models the `try/catch`
around the trigram query failing (`pg_trgm` unavailable). -/
structure PgEngine where
  chunks : List DbChunk
  docs : List DbDocument
  ftsMatch : String → String → Bool
  ftsRank : String → String → Rat
  sim : String → String → Rat
  trgmOk : Bool

/-- `FROM document_chunks c JOIN documents d ON d.id = c.document_id`. -/
def joinDocs (chunks : List DbChunk) (docs : List DbDocument) :
    List (DbChunk × DbDocument) :=
  (chunks.map (fun c =>
    (docs.filter (fun d => d.id == c.document_id)).map (fun d => (c, d)))).flatten

/-- Assemble a `ChunkResult` from a joined row and its computed score. -/
def rowToResult (score : Rat) (cd : DbChunk × DbDocument) : ChunkResult :=
  ⟨cd.1.id, cd.1.content, cd.1.section_title, cd.2.filename, cd.2.doc_type, score⟩

/-- `ORDER BY score DESC`: the sorting relation (higher scores first). -/
def scoreGeRel (a b : ChunkResult) : Prop := b.score ≤ a.score

instance : DecidableRel scoreGeRel := fun a b =>
  inferInstanceAs (Decidable (b.score ≤ a.score))

instance : IsTotal ChunkResult scoreGeRel :=
  ⟨fun a b => le_total b.score a.score⟩

instance : IsTrans ChunkResult scoreGeRel :=
  ⟨fun _ _ _ h h' => le_trans h' h⟩

/-- The optional `AND c.document_id = ANY($n::uuid[])` filter: present
only when a nonempty `documentIds` array was passed (JS
`documentIds?.length` is falsy for `undefined` and for `[]`). -/
def docFilterOk (documentIds : Option (List Nat)) (c : DbChunk) : Bool :=
  match documentIds with
  | some ids => if ids.isEmpty then true else ids.contains c.document_id
  | none => true

/-- Stage 1 of `searchPostgres`: the full-text query — rows of the join
in the dossier that match the ts-query (and the optional document
filter), scored by `ts_rank_cd`, ordered by score descending, limited to
`topK`. -/
def pgStage1 (E : PgEngine) (tsq : String) (dossierId topK : Nat)
    (documentIds : Option (List Nat)) : List ChunkResult :=
  ((joinDocs E.chunks E.docs).filter
      (fun cd => cd.1.dossier_id == dossierId
        && E.ftsMatch tsq cd.1.content
        && docFilterOk documentIds cd.1)
    |>.map (fun cd => rowToResult (E.ftsRank tsq cd.1.content) cd)
    |> List.insertionSort scoreGeRel).take topK

/-- Stage 2 of `searchPostgres`: the trigram fallback — rows of the join
in the dossier with `similarity(content, query) > 0.05`, excluding the
ids already returned by stage 1 (the `c.id != ALL($n)` predicate is
emitted only when the exclusion list is nonempty, which is also exactly
when it has any effect), ordered by similarity descending, limited to
`remaining`.  When the query throws (`trgmOk = false`) the catch leaves
the fallback results empty. -/
def pgStage2 (E : PgEngine) (query : String) (dossierId remaining : Nat)
    (excludeIds : List Nat) (documentIds : Option (List Nat)) :
    List ChunkResult :=
  if E.trgmOk then
    ((joinDocs E.chunks E.docs).filter
        (fun cd => cd.1.dossier_id == dossierId
          && (if excludeIds.isEmpty then true
              else !(excludeIds.contains cd.1.id))
          && decide ((1 : Rat) / 20 < E.sim cd.1.content query)
          && docFilterOk documentIds cd.1)
      |>.map (fun cd => rowToResult (E.sim cd.1.content query) cd)
      |> List.insertionSort scoreGeRel).take remaining
  else []

/-- Right fold carrying (tokens so far, was the previous char whitespace):
models `split(/\s+/)`, which collapses whitespace runs into one
separator and keeps boundary empty strings. -/
def jsSplitWs (l : List Char) : List (List Char) :=
  (l.foldr (fun c st =>
    if jsWsChar c then
      if st.2 then st else ([] :: st.1, true)
    else
      match st.1 with
      | t :: rest => ((c :: t) :: rest, false)
      | [] => ([[c]], false))
    (([[]], false) : List (List Char) × Bool)).1

/-- The character class `[a-zA-ZÀ-ÿ0-9]` kept by the strip step. -/
def keepAlnumChar (c : Char) : Bool :=
  decide (('a' ≤ c ∧ c ≤ 'z') ∨ ('A' ≤ c ∧ c ≤ 'Z') ∨
    ('0' ≤ c ∧ c ≤ '9') ∨ ('À' ≤ c ∧ c ≤ 'ÿ'))

/-- The tokenization of `searchPostgres`: split on whitespace, keep
tokens longer than 2 characters, then strip characters outside
`[a-zA-ZÀ-ÿ0-9]`, then drop tokens that became empty. -/
def tokenizeQuery (q : List Char) : List (List Char) :=
  (((jsSplitWs q).filter (fun w => 2 < w.length)).map
    (fun w => w.filter keepAlnumChar)).filter (fun w => !w.isEmpty)

/-- `words.join(' | ')`: the ts-query expression sent to Postgres. -/
def tsQueryOf (q : String) : String :=
  ⟨List.intercalate [' ', '|', ' '] (tokenizeQuery q.data)⟩

/-- Result of `searchPostgres` plus the number of SQL queries issued
(`dataSource.query` calls, attempted ones included). -/
structure PgOut where
  results : List ChunkResult
  dbQueries : Nat
deriving DecidableEq, Repr

/-- `RagService.searchPostgres(query, dossierId, topK, documentIds?)`:
tokenize; with no usable token return `[]` without querying; otherwise
run the full-text stage, return it alone when it already fills `topK`,
else append the trigram fallback for the remaining slots, excluding the
ids of the first stage. -/
def searchPostgres (E : PgEngine) (query : String) (dossierId topK : Nat)
    (documentIds : Option (List Nat)) : PgOut :=
  if (tokenizeQuery query.data).isEmpty then ⟨[], 0⟩
  else
    if topK ≤ (pgStage1 E (tsQueryOf query) dossierId topK documentIds).length then
      ⟨pgStage1 E (tsQueryOf query) dossierId topK documentIds, 1⟩
    else
      ⟨pgStage1 E (tsQueryOf query) dossierId topK documentIds ++
        pgStage2 E query dossierId
          (topK - (pgStage1 E (tsQueryOf query) dossierId topK documentIds).length)
          ((pgStage1 E (tsQueryOf query) dossierId topK documentIds).map (·.id))
          documentIds,
       2⟩

/-- JS `documentIds?.length` truthiness: a nonempty array was passed. -/
def docIdsRequested (documentIds : Option (List Nat)) : Bool :=
  match documentIds with
  | some ids => !ids.isEmpty
  | none => false

/-- `RagService.search(query, dossierId, topK, documentIds?)`: with a
nonempty document filter go straight to Postgres; else, when Azure AI
Search is configured, try it first and return its results verbatim when
nonempty, falling back to Postgres on an empty result or on a thrown
error (the error is caught, never propagated); else Postgres. -/
def ragSearch (E : PgEngine) (azureConfigured : Bool)
    (azureOutcome : Except String (List ChunkResult)) (query : String)
    (dossierId topK : Nat) (documentIds : Option (List Nat)) :
    List ChunkResult :=
  if docIdsRequested documentIds then
    (searchPostgres E query dossierId topK documentIds).results
  else if azureConfigured then
    match azureOutcome with
    | .ok rs =>
      if 0 < rs.length then rs
      else (searchPostgres E query dossierId topK none).results
    | .error _ => (searchPostgres E query dossierId topK none).results
  else (searchPostgres E query dossierId topK none).results

/-- Adjacent scores are non-increasing (the ranking order of a stage). -/
def scoresDesc : List ChunkResult → Bool
  | [] => true
  | [_] => true
  | a :: b :: rest => decide (b.score ≤ a.score) && scoresDesc (b :: rest)

/-- No id of the second list occurs among the ids of the first. -/
def noDupAcross (s1 s2 : List ChunkResult) : Bool :=
  s2.all (fun r => !((s1.map (·.id)).contains r.id))

/-- Every token is nonempty and built only from `[a-zA-ZÀ-ÿ0-9]`. -/
def tokensAlnumNonempty (ts : List (List Char)) : Bool :=
  ts.all (fun t => !t.isEmpty && t.all keepAlnumChar)

/-- A trivial engine over an empty database (for concrete witnesses). -/
def emptyEngine : PgEngine :=
  ⟨[], [], fun _ _ => false, fun _ _ => 0, fun _ _ => 0, true⟩

/-- A three-chunk, one-document database whose full-text engine matches
only the content `"alpha"` and whose trigram similarity is `1/2` on the
content `"beta"` (for concrete witnesses). -/
def sampleEngine : PgEngine :=
  ⟨[⟨1, "alpha", none, 7, 10⟩, ⟨2, "beta", none, 7, 10⟩,
    ⟨3, "gamma", none, 8, 10⟩],
   [⟨10, "f.pdf", "other"⟩],
   fun _ c => c == "alpha",
   fun _ _ => 1,
   fun c _ => if c == "beta" then (1 : Rat) / 2 else 0,
   true⟩

/-- A concrete retrieval result (for concrete witnesses). -/
def sampleResult : ChunkResult := ⟨42, "zeta", none, "g.pdf", "other", 3⟩

/-! ### Context assembly: `LlmController.buildSystemPrompt`

Dossier/round/question ids are modelled as `Nat`; stored uuid strings are
nonempty and hence always JS-truthy.  The repository lookups
(`dossierRepo.findOne`, `roundRepo.find`, `settingService.get`) and the
retrieval call (`ragService.search`) are parameters; the rag invocations
actually performed are returned alongside the prompt so that the call's
arguments (`question_text`, dossier id, fixed top-k 5, and the absent
document filter) are part of the model's observable output. -/

/-- JS truthiness of a `string | null | undefined` value: `undefined`,
`null` and the empty string are falsy. -/
def jsTruthyS : Option String → Bool
  | none => false
  | some s => s != ""

/-- JS `String.prototype.trim` on `String`. -/
def jsTrimStr (s : String) : String := ⟨jsTrim s.data⟩

/-- `ChatRequestDto` (message/model omitted: not read by the prompt
builder). -/
structure ChatRequestDto where
  systemPrompt : Option String
  autoApplyToResponse : Option Bool
  includeDocuments : Option Bool
  documentIds : Option (List Nat)
deriving DecidableEq, Repr

/-- The `round` relation loaded with the question. -/
structure RoundRef where
  dossier_id : Nat
  round_number : Int
deriving DecidableEq, Repr

/-- The question row as read by the controller. -/
structure QuestionRec where
  question_number : Option Int
  question_text : String
  round : Option RoundRef
deriving DecidableEq, Repr

/-- The dossier row as read by the controller. -/
structure DossierRec where
  system_prompt : Option String
deriving DecidableEq, Repr

/-- A question row inside a loaded previous round. -/
structure QRow where
  question_number : Int
  question_text : String
  response_text : Option String
deriving DecidableEq, Repr

/-- A round row loaded with its questions . -/
structure RoundRow where
  dossier_id : Nat
  round_number : Int
  questions : List QRow
deriving DecidableEq, Repr

/-- One recorded invocation of `ragService.search`. -/
structure RagCall where
  query : String
  dossierId : Nat
  topK : Nat
  documentIds : Option (List Nat)
deriving DecidableEq, Repr

/-- Output of the prompt builder: the prompt string and the retrieval
invocations performed while building it. -/
structure BuildOut where
  prompt : String
  ragCalls : List RagCall
deriving DecidableEq, Repr

/-- The base-prompt precedence chain of `buildSystemPrompt`:
`let basePrompt = dto.systemPrompt;` then
`if (!basePrompt && dossierId)` take the dossier's prompt when that is
truthy; then `if (!basePrompt)` take the settings default (or `''`).
The result is the final (string-valued) `basePrompt`. -/
def basePromptOf (dtoPrompt : Option String) (dossierId : Option Nat)
    (dossierFind : Nat → Option DossierRec)
    (settings : String → Option String) : String :=
  let b2 : Option String :=
    if !jsTruthyS dtoPrompt then
      match dossierId with
      | some did =>
        match dossierFind did with
        | some d => if jsTruthyS d.system_prompt then d.system_prompt else dtoPrompt
        | none => dtoPrompt
      | none => dtoPrompt
    else dtoPrompt
  if jsTruthyS b2 then b2.getD "" else (settings "default_system_prompt").getD ""

/-- Ascending order on `round_number` (the `order: round_number ASC` of
the rounds query). -/
def roundAscRel (a b : RoundRow) : Prop := a.round_number ≤ b.round_number

instance : DecidableRel roundAscRel := fun a b =>
  inferInstanceAs (Decidable (a.round_number ≤ b.round_number))

/-- Ascending order on `question_number` (the JS
`sort((a, b) => a.question_number - b.question_number)`). -/
def qnumAscRel (a b : QRow) : Prop := a.question_number ≤ b.question_number

instance : DecidableRel qnumAscRel := fun a b =>
  inferInstanceAs (Decidable (a.question_number ≤ b.question_number))

/-- One formatted previous-round Q&A block:
`[Tour N — Qk]\nQuestion: ...\nRéponse: ...`. -/
def formatPrevQA (roundNumber : Int) (q : QRow) : String :=
  "[Tour " ++ toString roundNumber ++ " — Q" ++ toString q.question_number ++
    "]\nQuestion: " ++ q.question_text ++ "\nRéponse: " ++
    (q.response_text.getD "")

/-- The previous-round Q&A strings: rounds of the dossier in ascending
round order, keeping rounds before the current one; in each, the
questions with a truthy `response_text`, sorted by question number,
formatted. -/
def prevRoundQA (allRounds : List RoundRow) (dossierId : Nat)
    (currentRoundNumber : Int) : List String :=
  (((List.insertionSort roundAscRel
      (allRounds.filter (fun r => r.dossier_id == dossierId))).filter
    (fun r => r.round_number < currentRoundNumber)).map
    (fun r =>
      ((List.insertionSort qnumAscRel
          (r.questions.filter (fun q => jsTruthyS q.response_text))).map
        (formatPrevQA r.round_number)))).flatten

/-- Section 2 of the prompt (omitted when the round is the first or no
answered previous question exists). -/
def prevRoundsSection (question : QuestionRec) (allRounds : List RoundRow) :
    List String :=
  match question.round with
  | some rnd =>
    if 1 < rnd.round_number then
      if (prevRoundQA allRounds rnd.dossier_id rnd.round_number).isEmpty then []
      else
        ["HISTORIQUE DES TOURS PRÉCÉDENTS (questions et réponses déjà traitées):\n\n"
          ++ String.intercalate "\n\n---\n\n"
              (prevRoundQA allRounds rnd.dossier_id rnd.round_number)]
    else []
  | none => []

/-- Section 3 of the prompt: the current question restatement, always
present (`question.question_number ?? ''`). -/
def questionSection (question : QuestionRec) : String :=
  "---\nQUESTION DU CONTRÔLEUR (Question " ++
    (match question.question_number with
     | some n => toString n
     | none => "") ++ "):\n" ++ question.question_text

/-- One formatted excerpt: content truncated to 800 characters with the
`\n[...]` marker appended when truncated, labelled by source filename. -/
def formatExcerpt (r : ChunkResult) : String :=
  "[Source: " ++ r.filename ++ "]\n" ++
    (if 800 < r.content.length then
      ⟨r.content.data.take 800⟩ ++ "\n[...]"
    else r.content)

/-- Section 4 of the prompt together with the rag invocation performed:
only when `dto.includeDocuments !== false` and a dossier id exists does
the controller call `ragService.search(question.question_text,
dossierId, 5)` — three arguments, no document filter; the section is
omitted when the call returns nothing. -/
def ragSection (dto : ChatRequestDto) (question : QuestionRec)
    (rag : RagCall → List ChunkResult) : List String × List RagCall :=
  if dto.includeDocuments != some false then
    match question.round with
    | some rnd =>
      match rag ⟨question.question_text, rnd.dossier_id, 5, none⟩ with
      | [] => ([], [⟨question.question_text, rnd.dossier_id, 5, none⟩])
      | rs =>
        (["EXTRAITS DE DOCUMENTS DE RÉFÉRENCE (utilisez-les pour enrichir votre réponse):\n\n"
            ++ String.intercalate "\n\n---\n\n" (rs.map formatExcerpt) ++
            "\n\nIMPORTANT: Inspirez-vous de ces extraits pour structurer et enrichir votre réponse, mais ne les copiez pas verbatim."],
         [⟨question.question_text, rnd.dossier_id, 5, none⟩])
    | none => ([], [])
  else ([], [])

/-- `LlmController.buildSystemPrompt(dto, question)`: the four sections
in order — base instruction (pushed only when its trim is nonempty),
previous-round history, current question, retrieved excerpts — joined by
blank lines; plus the record of rag invocations. -/
def buildSystemPrompt (dto : ChatRequestDto) (question : QuestionRec)
    (dossierFind : Nat → Option DossierRec)
    (settings : String → Option String) (allRounds : List RoundRow)
    (rag : RagCall → List ChunkResult) : BuildOut :=
  let dossierId : Option Nat := question.round.map (·.dossier_id)
  let base := basePromptOf dto.systemPrompt dossierId dossierFind settings
  let part1 : List String :=
    if (jsTrimStr base).isEmpty then [] else [jsTrimStr base]
  let part2 := prevRoundsSection question allRounds
  let part4 := ragSection dto question rag
  ⟨String.intercalate "\n\n"
      (part1 ++ part2 ++ [questionSection question] ++ part4.1),
   part4.2⟩

/-! ### Conversation state: the chat-turn message protocol

`LlmController.chat` / `chatStream` both run: load messages; when none
exist, build the system prompt and save it as a `system` message unless
its trim is empty; save the `user` message; (on success / on the `done`
event) save the `assistant` message. -/

/-- The `role` column of `llm_messages`. -/
inductive MsgRole where
  | system
  | user
  | assistant
deriving DecidableEq, Repr

/-- A persisted conversation message (the fields the protocol writes). -/
structure LlmMsg where
  role : MsgRole
  content : String
deriving DecidableEq, Repr

/-- The messages of a question after one chat turn: the lazily inserted
system message (only when no message existed and the built prompt trims
nonempty), then the user message, then — when the provider call
succeeded (for streaming: the `done` event arrived) — the assistant
message. -/
def chatTurnMessages (existing : List LlmMsg) (builtPrompt userContent : String)
    (assistant : Option String) : List LlmMsg :=
  let afterSystem :=
    if existing.isEmpty && !(jsTrimStr builtPrompt).isEmpty then
      existing ++ [⟨.system, builtPrompt⟩]
    else existing
  let afterUser := afterSystem ++ [⟨.user, userContent⟩]
  match assistant with
  | some a => afterUser ++ [⟨.assistant, a⟩]
  | none => afterUser

/-- Number of system messages in a list. -/
def countSystem (l : List LlmMsg) : Nat :=
  l.countP (fun m => m.role == .system)

/-! ### Multi-provider chat client: `LlmService.chat` / `chatStream`
preflight

The model/credential validation runs before any SDK client is
constructed; its successful outcome is the descriptor of the network
call that would then be issued.  `.error` means the call fails with a
`BadRequestException` carrying that exact message, with no network
call attempted and no retry. -/

/-- A catalog entry of `AVAILABLE_MODELS`. -/
structure ModelDef where
  id : String
  name : String
  provider : String
deriving DecidableEq, Repr

/-- The static model catalog of `llm.service.ts`. -/
def AVAILABLE_MODELS : List ModelDef := [
  ⟨"openai/gpt-5.2-chat", "GPT-5.2 Chat", "openai"⟩,
  ⟨"openai/gpt-4.1", "GPT-4.1", "openai"⟩,
  ⟨"openai/gpt-4.1-mini", "GPT-4.1 Mini", "openai"⟩,
  ⟨"openai/gpt-4.1-nano", "GPT-4.1 Nano", "openai"⟩,
  ⟨"openai/gpt-4o", "GPT-4o", "openai"⟩,
  ⟨"openai/o3", "o3 (reasoning)", "openai"⟩,
  ⟨"openai/o3-mini", "o3-mini", "openai"⟩,
  ⟨"anthropic/claude-opus-4-6", "Claude Opus 4.6", "anthropic"⟩,
  ⟨"anthropic/claude-sonnet-4-6", "Claude Sonnet 4.6", "anthropic"⟩,
  ⟨"anthropic/claude-sonnet-4-5-20250929", "Claude Sonnet 4.5", "anthropic"⟩,
  ⟨"anthropic/claude-haiku-4-5-20251001", "Claude Haiku 4.5", "anthropic"⟩,
  ⟨"azure-openai/gpt-5.2-chat", "Azure GPT-5.2 Chat", "azure-openai"⟩,
  ⟨"azure-openai/gpt-4o", "Azure GPT-4o", "azure-openai"⟩,
  ⟨"azure-openai/gpt-4.1", "Azure GPT-4.1", "azure-openai"⟩,
  ⟨"azure-openai/gpt-4.1-mini", "Azure GPT-4.1 Mini", "azure-openai"⟩,
  ⟨"azure-openai/gpt-4.1-nano", "Azure GPT-4.1 Nano", "azure-openai"⟩]

/-- Does `needle` occur in `hay` starting at some index?  Returns the
first such index (JS `indexOf`, occurrence-or-none part). -/
def jsIndexOf (hay needle : List Char) : Option Nat :=
  (List.range (hay.length + 1)).find? (fun i => occursAt hay needle i)

/-- JS `String.prototype.replace(pat, rep)` with a plain-string pattern:
replaces the first occurrence only. -/
def jsReplaceFirst (s pat rep : List Char) : List Char :=
  match jsIndexOf s pat with
  | some i => s.take i ++ rep ++ s.drop (i + pat.length)
  | none => s

/-- The network request a provider call would issue (provider and the
provider-local model/deployment name, `params.model.replace('<p>/',
'')`). -/
structure ProviderCall where
  provider : String
  modelName : String
deriving DecidableEq, Repr

/-- The `Unknown model: ...` message, naming the valid set. -/
def unknownModelMsg (modelId : String) : String :=
  "Unknown model: " ++ modelId ++ ". Available: " ++
    String.intercalate ", " (AVAILABLE_MODELS.map (·.id))

/-- The per-provider credential check each `chat*`/`chatStream*` method
performs before constructing its SDK client: `some msg` is the
`BadRequestException` message thrown, `none` means the credentials are
present.  The unreachable final branch mirrors `Unsupported provider`. -/
def credError (settings : String → Option String) (provider : String) :
    Option String :=
  if provider == "openai" then
    if !jsTruthyS (settings "openai_api_key") then
      some "OpenAI is not configured. Set openai_api_key in Settings."
    else none
  else if provider == "anthropic" then
    if !jsTruthyS (settings "anthropic_api_key") then
      some "Anthropic is not configured. Set anthropic_api_key in Settings."
    else none
  else if provider == "azure-openai" then
    if !jsTruthyS (settings "azure_openai_endpoint")
        || !jsTruthyS (settings "azure_openai_api_key") then
      some "Azure OpenAI is not configured. Set azure_openai_endpoint and azure_openai_api_key in Settings."
    else none
  else some ("Unsupported provider: " ++ provider)

/-- The provider-local model name: the catalog prefix
`'<provider>/'` is stripped by `replace`. -/
def providerModelName (provider modelId : String) : String :=
  ⟨jsReplaceFirst modelId.data (provider ++ "/").data []⟩

/-- `LlmService.chat` up to (and excluding) the provider network call:
resolve the model id against the catalog, dispatch on the provider, and
check its stored credentials. -/
def llmChatPreflight (settings : String → Option String) (modelId : String) :
    Except String ProviderCall :=
  match AVAILABLE_MODELS.find? (fun m => m.id == modelId) with
  | none => .error (unknownModelMsg modelId)
  | some m =>
    match credError settings m.provider with
    | some e => .error e
    | none => .ok ⟨m.provider, providerModelName m.provider modelId⟩

/-- `LlmService.chatStream` up to (and excluding) the provider network
call: the generator performs the same catalog lookup and the same
per-provider credential checks before opening the provider stream. -/
def llmChatStreamPreflight (settings : String → Option String)
    (modelId : String) : Except String ProviderCall :=
  match AVAILABLE_MODELS.find? (fun m => m.id == modelId) with
  | none => .error (unknownModelMsg modelId)
  | some m =>
    match credError settings m.provider with
    | some e => .error e
    | none => .ok ⟨m.provider, providerModelName m.provider modelId⟩

/-! ### Streaming turn: `LlmController.chatStream` consumption loop

The provider stream is a sequence of yielded events (`delta`/`done`)
possibly followed by a thrown error.  Client cancellation or any other
early end simply truncates the sequence with no terminal `done`.  The
controller writes one SSE event per yielded event, persists the
assistant message exactly when a `done` event arrives, and the
`catch` around the loop writes a single terminal `error` event. -/

/-- An event yielded by the provider stream generator. -/
inductive StreamItem where
  | delta (content : String)
  | done (content : String) (tokensIn tokensOut : Nat)
deriving DecidableEq, Repr

/-- An SSE event written to the client. -/
inductive ClientEvent where
  | delta (content : String)
  | done (content : String) (tokensIn tokensOut : Nat)
  | error (message : String)
deriving DecidableEq, Repr

/-- `true` exactly on `done` items. -/
def isDoneItem : StreamItem → Bool
  | .done _ _ _ => true
  | .delta _ => false

/-- `true` exactly on `error` events. -/
def isErrorEvent : ClientEvent → Bool
  | .error _ => true
  | _ => false

/-- The stream contains a terminal `done` event. -/
def hasDone (items : List StreamItem) : Bool := items.any isDoneItem

/-- The controller's `for await` loop over the yielded events `items`,
with `thrown = some e` when the iteration ends by a thrown error caught
by the surrounding `catch` (which writes one `error` event), and
`thrown = none` when it ends without one (normal end or cancellation).
Returns (assistant messages persisted, SSE events written). -/
def consumeStream : List StreamItem → Option String →
    List LlmMsg × List ClientEvent
  | [], none => ([], [])
  | [], some e => ([], [.error e])
  | .delta s :: rest, thrown =>
    ((consumeStream rest thrown).1,
     .delta s :: (consumeStream rest thrown).2)
  | .done c ti tu :: rest, thrown =>
    (⟨.assistant, c⟩ :: (consumeStream rest thrown).1,
     .done c ti tu :: (consumeStream rest thrown).2)

/-- Number of error events written. -/
def countErrors (evs : List ClientEvent) : Nat := evs.countP isErrorEvent

/-! ### Concrete fixtures for witnesses and counterexamples -/

/-- A settings store with nothing configured. -/
def emptySettings : String → Option String := fun _ => none

/-- A chat request that disables document inclusion while requesting a
specific document: per the DTO's documented contract, document 3 should
still be searched. -/
def c4DtoOff : ChatRequestDto := ⟨none, none, some false, some [3]⟩

/-- The same request with document inclusion left at its default. -/
def c4DtoOn : ChatRequestDto := ⟨none, none, none, some [3]⟩

/-- A question in round 1 of dossier 7. -/
def c4Question : QuestionRec := ⟨some 2, "Quelle est la TVA due ?", some ⟨7, 1⟩⟩

/-- A retrieval stub returning one excerpt for any call. -/
def c4Rag : RagCall → List ChunkResult := fun _ => [sampleResult]

/-! ## Theorems -/

/-- On the five-character input the loop reaches the state
`pos = 5 - 200 = -195` with an empty chunk list, and one more iteration
reproduces exactly that state: the cut is the whole (5-char) text, too
short to push, and the guard compares against `undefined`. -/
theorem chunkStep_hello_fixed :
    chunkStep helloText 1500 200 (-195) [] = (-195, []) := by decide

/-- From the stuck state the loop never finishes, whatever the fuel. -/
theorem chunkLoop_hello_stuck (fuel : Nat) :
    chunkLoop helloText 1500 200 fuel (-195) [] = none := by
  induction fuel with
  | zero => decide
  | succ f ih =>
    have hlt : ((-195 : Int) < (helloText.length : Int)) := by decide
    unfold chunkLoop
    rw [if_pos hlt, chunkStep_hello_fixed]
    exact ih

/-- `chunkText("hello")` never returns: the first iteration moves `pos`
to `-195` and the loop is stuck there. -/
theorem chunkTextRun_hello_none (fuel : Nat) :
    chunkTextRun helloText 1500 200 fuel = none := by
  have hnorm : jsTrim (collapseNl helloText) = helloText := by decide
  unfold chunkTextRun
  rw [hnorm]
  rw [if_neg (by decide)]
  cases fuel with
  | zero => decide
  | succ f =>
    have hlt : ((0 : Int) < (helloText.length : Int)) := by decide
    have hstep : chunkStep helloText 1500 200 0 [] = (-195, []) := by decide
    unfold chunkLoop
    rw [if_pos hlt, hstep]
    exact chunkLoop_hello_stuck f

/-- Pushing a chunk preserves the 50-character lower bound: the push is
guarded by `chunk.length >= 50`. -/
theorem chunkPush_min50 (n : List Char) (mc : Nat) (pos : Int)
    (chunks : List Chunk) (h : allChunksMin50 chunks = true) :
    allChunksMin50 (chunkPush n mc pos chunks) = true := by
  unfold chunkPush
  split
  · unfold allChunksMin50 at *
    rename_i hlen
    simp only [List.all_append, List.all_cons, List.all_nil, Bool.and_true,
      h, Bool.true_and]
    simpa using hlen
  · exact h

/-- The loop only ever adds chunks through the guarded push, so a
completed run starting from a bounded chunk list stays bounded. -/
theorem chunkLoop_min50 (n : List Char) (mc ov : Nat) :
    ∀ (fuel : Nat) (pos : Int) (chunks cs : List Chunk),
      allChunksMin50 chunks = true →
      chunkLoop n mc ov fuel pos chunks = some cs →
      allChunksMin50 cs = true := by
  intro fuel
  induction fuel with
  | zero =>
    intro pos chunks cs h hr
    unfold chunkLoop at hr
    split at hr
    · exact absurd hr (by simp)
    · exact (Option.some.inj hr) ▸ h
  | succ f ih =>
    intro pos chunks cs h hr
    unfold chunkLoop at hr
    split at hr
    · exact ih _ _ _ (chunkPush_min50 n mc pos chunks h) hr
    · exact (Option.some.inj hr) ▸ h

/-- C2 (amended): every chunk that `chunkText` ever returns has content
length at least 50 — with no exception for short inputs — and an input
that is empty (or whitespace-only) after normalization yields the empty
list.  (A nonempty normalized input shorter than 50 characters yields no
result at all: the loop diverges, see the counterexample below.) -/
theorem C2_chunk_min_length (t : List Char) (mc ov fuel : Nat)
    (cs : List Chunk) (h : chunkTextRun t mc ov fuel = some cs) :
    allChunksMin50 cs = true ∧
      ((jsTrim (collapseNl t)).isEmpty = true → cs = []) := by
  unfold chunkTextRun at h
  constructor
  · split at h
    · cases Option.some.inj h; rfl
    · exact chunkLoop_min50 _ _ _ _ _ _ _ (by rfl) h
  · intro he
    rw [if_pos he] at h
    exact (Option.some.inj h).symm

/-- Witness for C2 (amended) at a concrete 60-character input, which
chunks into a single 60-character chunk in one loop iteration. -/
theorem C2_chunk_min_length_witness :
    allChunksMin50 [(⟨aaaText, 0, 60⟩ : Chunk)] = true ∧
      ((jsTrim (collapseNl aaaText)).isEmpty = true →
        [(⟨aaaText, 0, 60⟩ : Chunk)] = []) :=
  C2_chunk_min_length aaaText 1500 200 1 [⟨aaaText, 0, 60⟩] (by decide)

/-- C2 counterexample: `"hello"` is nonempty and shorter than 50
characters after normalization, yet `chunkText` does not return a single
chunk equal to the whole input — it returns nothing at all, for any
fuel (the loop diverges). -/
theorem C2_counterexample :
    helloText ≠ [] ∧ (jsTrim (collapseNl helloText)).length < 50 ∧
      chunkTextDiverges helloText 1500 200 :=
  ⟨by decide, by decide, chunkTextRun_hello_none⟩

/-- C1: contrary to the claim, `chunkText` does not terminate on every
input with the default parameters 1500/200.  On the nonempty input
`"hello"` (shorter than 50 characters) the first iteration pushes no
chunk, so the guard's optional access sees an empty list and compares
`pos <= undefined` (false); `pos` stays at `end - overlap = -195`
forever and the loop never exits. -/
theorem C1_chunkText_diverges_on_short_input :
    helloText ≠ [] ∧ chunkTextDiverges helloText 1500 200 :=
  ⟨by decide, chunkTextRun_hello_none⟩

/-! ### Retrieval theorems -/

/-- A `Sorted`-by-`scoreGeRel` list passes the adjacent-scores check. -/
theorem scoresDesc_of_sorted (l : List ChunkResult)
    (h : List.Sorted scoreGeRel l) : scoresDesc l = true := by
  induction l with
  | nil => rfl
  | cons a t ih =>
    cases t with
    | nil => rfl
    | cons b r =>
      have h1 : scoreGeRel a b :=
        List.rel_of_sorted_cons h b (List.mem_cons_self b r)
      have h2 := ih h.of_cons
      simp only [scoresDesc, h2, Bool.and_true, decide_eq_true_eq]
      exact h1

/-- Any prefix of an insertion sort by score is score-descending. -/
theorem scoresDesc_take_sort (l : List ChunkResult) (m : Nat) :
    scoresDesc ((List.insertionSort scoreGeRel l).take m) = true :=
  scoresDesc_of_sorted _
    ((List.sorted_insertionSort scoreGeRel l).sublist (List.take_sublist m _))

/-- Stage 1 is ordered by its full-text score, high to low. -/
theorem pgStage1_sorted (E : PgEngine) (tsq : String) (did k : Nat)
    (dids : Option (List Nat)) :
    scoresDesc (pgStage1 E tsq did k dids) = true :=
  scoresDesc_take_sort _ _

/-- Stage 2 is ordered by its similarity score, high to low (trivially
when the trigram query failed and the stage is empty). -/
theorem pgStage2_sorted (E : PgEngine) (q : String) (did rem : Nat)
    (excl : List Nat) (dids : Option (List Nat)) :
    scoresDesc (pgStage2 E q did rem excl dids) = true := by
  unfold pgStage2
  split
  · exact scoresDesc_take_sort _ _
  · rfl

/-- Stage 1 returns at most `topK` rows (`LIMIT $3`). -/
theorem pgStage1_length_le (E : PgEngine) (tsq : String) (did k : Nat)
    (dids : Option (List Nat)) :
    (pgStage1 E tsq did k dids).length ≤ k :=
  List.length_take_le k _

/-- Stage 2 returns at most `remaining` rows (`LIMIT`). -/
theorem pgStage2_length_le (E : PgEngine) (q : String) (did rem : Nat)
    (excl : List Nat) (dids : Option (List Nat)) :
    (pgStage2 E q did rem excl dids).length ≤ rem := by
  unfold pgStage2
  split
  · exact List.length_take_le rem _
  · simp

/-- Every row of stage 2 has an id outside the exclusion list: the
`c.id != ALL($n::uuid[])` predicate filters it out (and an empty
exclusion list excludes nothing, vacuously). -/
theorem pgStage2_excludes (E : PgEngine) (q : String) (did rem : Nat)
    (excl : List Nat) (dids : Option (List Nat)) (r : ChunkResult)
    (hr : r ∈ pgStage2 E q did rem excl dids) :
    excl.isEmpty = true ∨ excl.contains r.id = false := by
  unfold pgStage2 at hr
  split at hr
  · have hr2 := List.take_subset _ _ hr
    rw [(List.perm_insertionSort scoreGeRel _).mem_iff] at hr2
    obtain ⟨cd, hcd, hmap⟩ := List.mem_map.mp hr2
    have hfil := (List.mem_filter.mp hcd).2
    by_cases hemp : excl.isEmpty = true
    · exact Or.inl hemp
    · refine Or.inr ?_
      rw [if_neg hemp] at hfil
      simp only [Bool.and_eq_true, Bool.not_eq_true'] at hfil
      have : r.id = cd.1.id := by rw [← hmap]; rfl
      rw [this]
      exact hfil.1.1.2
  · cases hr

/-- C3: when the full-text stage returns `k1 < topK` rows, the result of
`searchPostgres` is exactly the stage-1 rows (score-descending) followed
by the trigram-fallback rows (similarity-descending), has total length at
most `topK`, and no chunk id appears in both stages. -/
theorem C3_waterfall (E : PgEngine) (q : String) (did k : Nat)
    (dids : Option (List Nat))
    (htok : (tokenizeQuery q.data).isEmpty = false)
    (hlt : (pgStage1 E (tsQueryOf q) did k dids).length < k) :
    (searchPostgres E q did k dids).results =
        pgStage1 E (tsQueryOf q) did k dids ++
          pgStage2 E q did
            (k - (pgStage1 E (tsQueryOf q) did k dids).length)
            ((pgStage1 E (tsQueryOf q) did k dids).map (·.id)) dids ∧
      scoresDesc (pgStage1 E (tsQueryOf q) did k dids) = true ∧
      scoresDesc (pgStage2 E q did
        (k - (pgStage1 E (tsQueryOf q) did k dids).length)
        ((pgStage1 E (tsQueryOf q) did k dids).map (·.id)) dids) = true ∧
      (searchPostgres E q did k dids).results.length ≤ k ∧
      noDupAcross (pgStage1 E (tsQueryOf q) did k dids)
        (pgStage2 E q did
          (k - (pgStage1 E (tsQueryOf q) did k dids).length)
          ((pgStage1 E (tsQueryOf q) did k dids).map (·.id)) dids) = true := by
  have hres : (searchPostgres E q did k dids).results =
      pgStage1 E (tsQueryOf q) did k dids ++
        pgStage2 E q did
          (k - (pgStage1 E (tsQueryOf q) did k dids).length)
          ((pgStage1 E (tsQueryOf q) did k dids).map (·.id)) dids := by
    unfold searchPostgres
    rw [if_neg (by simp [htok]), if_neg (not_le.mpr hlt)]
  refine ⟨hres, pgStage1_sorted E _ did k dids, pgStage2_sorted E q did _ _ dids,
    ?_, ?_⟩
  · rw [hres, List.length_append]
    have h2 := pgStage2_length_le E q did
      (k - (pgStage1 E (tsQueryOf q) did k dids).length)
      ((pgStage1 E (tsQueryOf q) did k dids).map (·.id)) dids
    omega
  · rw [noDupAcross, List.all_eq_true]
    intro r hr
    rcases pgStage2_excludes E q did _ _ dids r hr with hemp | hc
    · have h0 : (pgStage1 E (tsQueryOf q) did k dids).map (·.id) = [] :=
        List.isEmpty_iff.mp hemp
      simp only [Bool.not_eq_true', h0]
      rfl
    · simp only [Bool.not_eq_true']
      exact hc

/-- Witness for C3: a database where the full-text stage matches one of
three chunks and the trigram fallback supplies a second one. -/
theorem C3_waterfall_witness :
    (searchPostgres sampleEngine "alpha terms" 7 5 none).results =
        pgStage1 sampleEngine (tsQueryOf "alpha terms") 7 5 none ++
          pgStage2 sampleEngine "alpha terms" 7
            (5 - (pgStage1 sampleEngine (tsQueryOf "alpha terms") 7 5 none).length)
            ((pgStage1 sampleEngine (tsQueryOf "alpha terms") 7 5 none).map (·.id))
            none ∧
      scoresDesc (pgStage1 sampleEngine (tsQueryOf "alpha terms") 7 5 none) = true ∧
      scoresDesc (pgStage2 sampleEngine "alpha terms" 7
        (5 - (pgStage1 sampleEngine (tsQueryOf "alpha terms") 7 5 none).length)
        ((pgStage1 sampleEngine (tsQueryOf "alpha terms") 7 5 none).map (·.id))
        none) = true ∧
      (searchPostgres sampleEngine "alpha terms" 7 5 none).results.length ≤ 5 ∧
      noDupAcross (pgStage1 sampleEngine (tsQueryOf "alpha terms") 7 5 none)
        (pgStage2 sampleEngine "alpha terms" 7
          (5 - (pgStage1 sampleEngine (tsQueryOf "alpha terms") 7 5 none).length)
          ((pgStage1 sampleEngine (tsQueryOf "alpha terms") 7 5 none).map (·.id))
          none) = true :=
  C3_waterfall sampleEngine "alpha terms" 7 5 none (by decide) (by decide)

/-- C7: with no document filter and Azure configured, `search` returns
the backend's results verbatim when nonempty, and otherwise — empty
backend result or backend exception — falls through to the local
Postgres path; the thrown error is swallowed, never returned. -/
theorem C7_azure_waterfall (E : PgEngine) (q : String) (did k : Nat)
    (dids : Option (List Nat)) (rs : List ChunkResult) (e : String)
    (hd : docIdsRequested dids = false) :
    (rs ≠ [] → ragSearch E true (.ok rs) q did k dids = rs) ∧
      ragSearch E true (.ok []) q did k dids =
        (searchPostgres E q did k none).results ∧
      ragSearch E true (.error e) q did k dids =
        (searchPostgres E q did k none).results := by
  have hbranch : ∀ (out : Except String (List ChunkResult)),
      ragSearch E true out q did k dids =
        (match out with
         | .ok rs =>
           if 0 < rs.length then rs
           else (searchPostgres E q did k none).results
         | .error _ => (searchPostgres E q did k none).results) := by
    intro out
    unfold ragSearch
    rw [if_neg (by simp [hd]), if_pos rfl]
  refine ⟨fun hne => ?_, ?_, ?_⟩
  · rw [hbranch]
    exact if_pos (List.length_pos.mpr hne)
  · rw [hbranch]
    rfl
  · rw [hbranch]

/-- Witness for C7 at a concrete backend result and a concrete error. -/
theorem C7_azure_waterfall_witness :
    ([sampleResult] ≠ [] →
        ragSearch emptyEngine true (.ok [sampleResult]) "qq" 1 3 none =
          [sampleResult]) ∧
      ragSearch emptyEngine true (.ok []) "qq" 1 3 none =
        (searchPostgres emptyEngine "qq" 1 3 none).results ∧
      ragSearch emptyEngine true (.error "boom") "qq" 1 3 none =
        (searchPostgres emptyEngine "qq" 1 3 none).results :=
  C7_azure_waterfall emptyEngine "qq" 1 3 none [sampleResult] "boom" (by decide)

/-- C9 counterexample: in the query `"ab-"` the token `"ab-"` survives
the length filter (3 > 2) and is only then stripped to `"ab"`, so the
search expression contains a token of length 2 — and a database query is
issued — contradicting the claim that every token used is longer than
two characters. -/
theorem C9_counterexample :
    tokenizeQuery ("ab-" : String).data = [['a', 'b']] ∧
      (['a', 'b'] : List Char).length ≤ 2 ∧
      (searchPostgres emptyEngine "ab-" 1 10 none).dbQueries ≠ 0 := by
  decide

/-- C9 (amended): the length-`> 2` filter runs before the strip, so a
token used in the search expression may end up as short as one
character; still, every used token is nonempty and consists only of
characters in `[a-zA-ZÀ-ÿ0-9]`, and when no usable token remains the
search returns `[]` without issuing any database query. -/
theorem C9_tokenization (q : String) (E : PgEngine) (did k : Nat)
    (dids : Option (List Nat)) :
    tokensAlnumNonempty (tokenizeQuery q.data) = true ∧
      ((tokenizeQuery q.data).isEmpty = true →
        searchPostgres E q did k dids = ⟨[], 0⟩) := by
  constructor
  · rw [tokensAlnumNonempty, List.all_eq_true]
    intro t ht
    have ht1 := (List.mem_filter.mp ht).1
    have ht2 := (List.mem_filter.mp ht).2
    obtain ⟨w, _, hw⟩ := List.mem_map.mp ht1
    simp only [Bool.and_eq_true, ht2, true_and]
    rw [List.all_eq_true]
    intro c hc
    rw [← hw] at hc
    exact (List.mem_filter.mp hc).2
  · intro he
    unfold searchPostgres
    rw [if_pos he]

/-- Witness for C9 at the whitespace-only query of the spec's
empty-query scenario: no token survives and no query is issued. -/
theorem C9_tokenization_witness :
    tokensAlnumNonempty (tokenizeQuery ("  " : String).data) = true ∧
      ((tokenizeQuery ("  " : String).data).isEmpty = true →
        searchPostgres emptyEngine "  " 1 10 none = ⟨[], 0⟩) :=
  C9_tokenization "  " emptyEngine 1 10 none

/-! ### Context-assembly theorems -/

/-- C4: contrary to the claim (and to the DTO's documented contract),
`buildSystemPrompt` never consults `documentIds`.  With
`includeDocuments = false` and `documentIds = [3]` no retrieval call is
made at all (first conjunct), and when retrieval does run the call
carries the question text, the dossier id, top-k 5 and no document
filter, the requested `documentIds` notwithstanding (second conjunct). -/
theorem C4_documentIds_ignored :
    (buildSystemPrompt c4DtoOff c4Question (fun _ => none) emptySettings []
        c4Rag).ragCalls = [] ∧
      (buildSystemPrompt c4DtoOn c4Question (fun _ => none) emptySettings []
          c4Rag).ragCalls = [⟨"Quelle est la TVA due ?", 7, 5, none⟩] := by
  decide

/-- A truthy per-call override stops the precedence chain at once. -/
theorem basePromptOf_override (w : String) (hw : w ≠ "")
    (dossierId : Option Nat) (dossierFind : Nat → Option DossierRec)
    (settings : String → Option String) :
    basePromptOf (some w) dossierId dossierFind settings = w := by
  have htr : jsTruthyS (some w) = true := by
    simp [jsTruthyS, hw]
  unfold basePromptOf
  simp [htr]

/-- With no override and empty lookups the base prompt is the empty
string. -/
theorem basePromptOf_none :
    ∀ (dossierId : Option Nat),
      basePromptOf none dossierId (fun _ => none) (fun _ => none) = "" := by
  intro dossierId
  unfold basePromptOf
  cases dossierId <;> rfl

/-- C10: a nonempty whitespace-only per-call override is truthy in JS,
so it wins the precedence chain — the case-level and default
instructions are never consulted — and its trim is empty, so the
base-instruction section is omitted: the build output equals that of a
request with no override and no configured lower-precedence source at
all. -/
theorem C10_whitespace_override (w : String) (hw1 : w ≠ "")
    (hw2 : jsTrimStr w = "") (app incDocs : Option Bool)
    (dids : Option (List Nat)) (question : QuestionRec)
    (dossierFind : Nat → Option DossierRec)
    (settings : String → Option String) (allRounds : List RoundRow)
    (rag : RagCall → List ChunkResult) :
    buildSystemPrompt ⟨some w, app, incDocs, dids⟩ question dossierFind
        settings allRounds rag =
      buildSystemPrompt ⟨none, app, incDocs, dids⟩ question (fun _ => none)
        (fun _ => none) allRounds rag := by
  unfold buildSystemPrompt
  dsimp only
  rw [basePromptOf_override w hw1, basePromptOf_none, hw2]
  have h0 : jsTrimStr "" = "" := rfl
  rw [h0]
  rfl

/-- Witness for C10 at the override `" "` and a concrete dossier prompt
and settings default that are both suppressed. -/
theorem C10_whitespace_override_witness :
    buildSystemPrompt ⟨some " ", none, none, some [3]⟩ c4Question
        (fun _ => some ⟨some "dossier instruction"⟩)
        (fun _ => some "default instruction") [] c4Rag =
      buildSystemPrompt ⟨none, none, none, some [3]⟩ c4Question
        (fun _ => none) (fun _ => none) [] c4Rag :=
  C10_whitespace_override " " (by decide) (by decide) none none (some [3])
    c4Question (fun _ => some ⟨some "dossier instruction"⟩)
    (fun _ => some "default instruction") [] c4Rag

/-! ### Conversation-protocol theorems -/

/-- Counting system messages distributes over append. -/
theorem countSystem_append (l1 l2 : List LlmMsg) :
    countSystem (l1 ++ l2) = countSystem l1 + countSystem l2 :=
  List.countP_append _ _ _

/-- A chat turn adds a system message exactly when the store was empty
and the built prompt trims nonempty. -/
theorem countSystem_chatTurn (existing : List LlmMsg) (p u : String)
    (a : Option String) :
    countSystem (chatTurnMessages existing p u a) =
      countSystem existing +
        (if existing.isEmpty && !(jsTrimStr p).isEmpty then 1 else 0) := by
  unfold chatTurnMessages
  cases a <;> split <;>
    simp [countSystem, List.countP_append, List.countP_cons]

/-- A chat turn always leaves at least the user message. -/
theorem chatTurn_ne_nil (existing : List LlmMsg) (p u : String)
    (a : Option String) : chatTurnMessages existing p u a ≠ [] := by
  unfold chatTurnMessages
  cases a <;> simp

/-- C8: on a question that already has messages, a chat turn adds no
system message; across two consecutive turns the store never holds more
than one system message; and on an empty store a whitespace-only built
prompt yields no system message at all. -/
theorem C8_system_message_once (existing : List LlmMsg) (p q u v : String)
    (a b : Option String) :
    (existing ≠ [] →
      countSystem (chatTurnMessages existing p u a) = countSystem existing) ∧
      (countSystem existing ≤ 1 →
        countSystem
          (chatTurnMessages (chatTurnMessages existing p u a) q v b) ≤ 1) ∧
      (jsTrimStr p = "" → countSystem (chatTurnMessages [] p u a) = 0) := by
  refine ⟨fun hne => ?_, fun hle => ?_, fun hp => ?_⟩
  · rw [countSystem_chatTurn]
    have h0 : existing.isEmpty = false := by
      simpa [List.isEmpty_iff] using hne
    simp [h0]
  · rw [countSystem_chatTurn, countSystem_chatTurn]
    have h1 : (chatTurnMessages existing p u a).isEmpty = false := by
      simpa [List.isEmpty_iff] using chatTurn_ne_nil existing p u a
    rw [h1]
    by_cases h0 : existing.isEmpty = true
    · have : existing = [] := List.isEmpty_iff.mp h0
      subst this
      simp [countSystem]
      split <;> simp
    · rw [Bool.not_eq_true] at h0
      simp [h0]
      exact hle
  · rw [countSystem_chatTurn, hp]
    rfl

/-- Witness for C8: a store already holding one system message, a
whitespace-only prompt, and two concrete consecutive turns. -/
theorem C8_system_message_once_witness :
    (([(⟨.system, "s"⟩ : LlmMsg)] ≠ []) →
        countSystem (chatTurnMessages [⟨.system, "s"⟩] " " "u" (some "a")) =
          countSystem [(⟨.system, "s"⟩ : LlmMsg)]) ∧
      (countSystem [(⟨.system, "s"⟩ : LlmMsg)] ≤ 1 →
        countSystem
          (chatTurnMessages
            (chatTurnMessages [⟨.system, "s"⟩] " " "u" (some "a"))
            "x" "v" none) ≤ 1) ∧
      (jsTrimStr " " = "" →
        countSystem (chatTurnMessages [] " " "u" (some "a")) = 0) :=
  C8_system_message_once [⟨.system, "s"⟩] " " "x" "u" "v" (some "a") none

/-! ### Provider preflight theorems -/

/-- C6: an unknown model id makes both the blocking and the streaming
call fail with the `Unknown model` configuration error naming the valid
catalog, and a known model whose provider credential check fails makes
both fail with that provider's exact `... is not configured. Set ... in
Settings.` message — in every case the result is an error, so no
provider network call descriptor is ever produced, and the single
returned error is the whole outcome (no retry). -/
theorem C6_config_errors (settings : String → Option String)
    (modelId : String) (m : ModelDef) (e : String) :
    (AVAILABLE_MODELS.find? (fun md => md.id == modelId) = none →
      llmChatPreflight settings modelId = .error (unknownModelMsg modelId) ∧
        llmChatStreamPreflight settings modelId =
          .error (unknownModelMsg modelId)) ∧
      (AVAILABLE_MODELS.find? (fun md => md.id == modelId) = some m →
        credError settings m.provider = some e →
        llmChatPreflight settings modelId = .error e ∧
          llmChatStreamPreflight settings modelId = .error e) := by
  constructor
  · intro h
    constructor
    · simp only [llmChatPreflight, h]
    · simp only [llmChatStreamPreflight, h]
  · intro h hc
    constructor
    · simp only [llmChatPreflight, h, hc]
    · simp only [llmChatStreamPreflight, h, hc]

/-- Witness for C6: with nothing configured, the unknown id
`"mistral/large"` fails naming the catalog, and the known id
`"openai/gpt-4o"` fails naming `openai_api_key`. -/
theorem C6_config_errors_witness :
    (llmChatPreflight emptySettings "mistral/large" =
        .error (unknownModelMsg "mistral/large") ∧
      llmChatStreamPreflight emptySettings "mistral/large" =
        .error (unknownModelMsg "mistral/large")) ∧
      (llmChatPreflight emptySettings "openai/gpt-4o" =
          .error "OpenAI is not configured. Set openai_api_key in Settings." ∧
        llmChatStreamPreflight emptySettings "openai/gpt-4o" =
          .error "OpenAI is not configured. Set openai_api_key in Settings.") :=
  ⟨(C6_config_errors emptySettings "mistral/large" ⟨"", "", ""⟩ "").1
      (by decide),
   (C6_config_errors emptySettings "openai/gpt-4o"
      ⟨"openai/gpt-4o", "GPT-4o", "openai"⟩
      "OpenAI is not configured. Set openai_api_key in Settings.").2
      (by decide) (by decide)⟩

/-! ### Streaming-turn theorems -/

/-- Without a `done` event nothing is persisted, whether the stream
ended normally, was cut short, or ended in a thrown error. -/
theorem consumeStream_persisted_nil (items : List StreamItem)
    (thrown : Option String) (h : hasDone items = false) :
    (consumeStream items thrown).1 = [] := by
  induction items with
  | nil => cases thrown <;> rfl
  | cons it rest ih =>
    cases it with
    | delta s =>
      have h2 : hasDone rest = false := by
        simpa [hasDone, isDoneItem] using h
      simpa [consumeStream] using ih h2
    | done c ti tu => simp [hasDone, isDoneItem] at h

/-- A thrown error contributes exactly the final `error` event: the
written events split as error-free events plus one terminal error. -/
theorem consumeStream_error_split (items : List StreamItem) (e : String) :
    ∃ evs, (consumeStream items (some e)).2 = evs ++ [.error e] ∧
      countErrors evs = 0 := by
  induction items with
  | nil => exact ⟨[], rfl, rfl⟩
  | cons it rest ih =>
    obtain ⟨evs, hevs, hcnt⟩ := ih
    cases it with
    | delta s =>
      refine ⟨.delta s :: evs, ?_, ?_⟩
      · simp [consumeStream, hevs]
      · simp [countErrors, List.countP_cons, isErrorEvent]
        simpa [countErrors] using hcnt
    | done c ti tu =>
      refine ⟨.done c ti tu :: evs, ?_, ?_⟩
      · simp [consumeStream, hevs]
      · simp [countErrors, List.countP_cons, isErrorEvent]
        simpa [countErrors] using hcnt

/-- Without a thrown error no error event is ever written. -/
theorem consumeStream_none_no_error (items : List StreamItem) :
    countErrors (consumeStream items none).2 = 0 := by
  induction items with
  | nil => rfl
  | cons it rest ih =>
    cases it with
    | delta s =>
      simp [consumeStream, countErrors, List.countP_cons, isErrorEvent]
      simpa [countErrors] using ih
    | done c ti tu =>
      simp [consumeStream, countErrors, List.countP_cons, isErrorEvent]
      simpa [countErrors] using ih

/-- C5: the streaming turn persists an assistant message only on the
provider stream's terminal `done` event — a stream canceled or failing
after any number of deltas but before `done` persists nothing — and a
thrown provider failure is written to the client as exactly one error
event, in terminal position; without a failure no error event is
written. -/
theorem C5_stream_persistence (items : List StreamItem) (e : String)
    (thrown : Option String) :
    (hasDone items = false → (consumeStream items thrown).1 = []) ∧
      countErrors (consumeStream items (some e)).2 = 1 ∧
      (consumeStream items (some e)).2.getLast? = some (.error e) ∧
      countErrors (consumeStream items none).2 = 0 := by
  refine ⟨fun h => consumeStream_persisted_nil items thrown h, ?_, ?_,
    consumeStream_none_no_error items⟩
  · obtain ⟨evs, hevs, hcnt⟩ := consumeStream_error_split items e
    rw [hevs, countErrors, List.countP_append]
    have : evs.countP isErrorEvent = 0 := hcnt
    rw [this]
    rfl
  · obtain ⟨evs, hevs, _⟩ := consumeStream_error_split items e
    rw [hevs]
    exact List.getLast?_concat _

/-- Witness for C5 at the spec's streaming-abort scenario: the stream
ends after two delta events with no terminal `done`. -/
theorem C5_stream_persistence_witness :
    (hasDone [.delta "a", .delta "b"] = false →
      (consumeStream [.delta "a", .delta "b"] none).1 = []) ∧
      countErrors (consumeStream [.delta "a", .delta "b"] (some "boom")).2 = 1 ∧
      (consumeStream [.delta "a", .delta "b"] (some "boom")).2.getLast? =
        some (.error "boom") ∧
      countErrors (consumeStream [.delta "a", .delta "b"] none).2 = 0 :=
  C5_stream_persistence [.delta "a", .delta "b"] "boom" none

end ResponsiaTax
